import Mathlib

/-!
Verification development for the rock-paper-scissors card game engine.

The JavaScript sources are shallowly embedded: each class becomes a namespace
of pure functions over explicit state records, machine numbers are modelled as
`Nat`/`Int`/`ℚ`, thrown exceptions become `Option`/`Except` error values (the
JS methods mutate only after all their validation throws, which the embedding
mirrors by returning the pre-call state alongside an error message), and the
wall clock (`Date.now()`) is modelled as the constant `dateNow` because the
engine never branches on it.  Display-only strings (icons, explanation texts,
phase instructions) are elided from the embedded state; they carry no game
logic.
-/

namespace CardGame

/-- Property names accepted by the engine: the three canonical names of
`GameConfig.PROPERTIES` plus the three legacy aliases of
`GameConfig.LEGACY_PROPERTIES` / `GameRules.LEGACY_PROPERTY_MAP`. -/
inductive PName where
  | deception
  | magic
  | attack
  | rock
  | paper
  | scissors
deriving DecidableEq, Repr, Fintype

/-- `GameRules.LEGACY_PROPERTY_MAP` applied by `GameRules.normalizeProperty`:
legacy names map to canonical ones, canonical names are returned unchanged. -/
def normalizeProperty : PName → PName
  | .rock => .deception
  | .paper => .magic
  | .scissors => .attack
  | p => p

/-- `GameRules.VALID_PROPERTIES`. -/
def VALID_PROPERTIES : List PName := [.deception, .magic, .attack]

/-- `GameRules.WINNING_RULES`: an object keyed by the canonical names only,
so a lookup with a legacy key yields `none` (JS `undefined`). -/
def WINNING_RULES : PName → Option PName
  | .deception => some .attack
  | .attack => some .magic
  | .magic => some .deception
  | _ => none

namespace GameRules

/-- `GameRules.isValidProperty`: valid after normalization. -/
def isValidProperty (p : PName) : Bool :=
  VALID_PROPERTIES.contains (normalizeProperty p)

/-- `GameRules.isValidPropertyValue`: an integer between 1 and 9.  The
integrality check `Number.isInteger` is captured by the `Nat` domain. -/
def isValidPropertyValue (v : Nat) : Bool :=
  decide (1 ≤ v) && decide (v ≤ 9)

/-- `GameRules.doesPropertyBeat`. -/
def doesPropertyBeat (p1 p2 : PName) : Bool :=
  WINNING_RULES (normalizeProperty p1) = some (normalizeProperty p2)

/-- `GameRules.calculateRoundScore`.  The two validation throws are modelled
as `none`; the happy path returns the `[player1Score, player2Score]` pair. -/
def calculateRoundScore (prop1 : PName) (val1 : Nat) (prop2 : PName) (val2 : Nat) :
    Option (Nat × Nat) :=
  if ¬ (isValidProperty prop1 ∧ isValidProperty prop2) then none
  else if ¬ (isValidPropertyValue val1 ∧ isValidPropertyValue val2) then none
  else
    let p1 := normalizeProperty prop1
    let p2 := normalizeProperty prop2
    if p1 = p2 then
      if val1 > val2 then some (val1 - val2, 0)
      else if val2 > val1 then some (0, val2 - val1)
      else some (0, 0)
    else if WINNING_RULES p1 = some p2 ∧ val1 > val2 then some (val1 - val2, 0)
    else if WINNING_RULES p2 = some p1 ∧ val2 > val1 then some (0, val2 - val1)
    else some (0, 0)

/-- `GameRules.getRoundWinner` restricted to the happy path. -/
def getRoundWinner (prop1 : PName) (val1 : Nat) (prop2 : PName) (val2 : Nat) :
    Option String :=
  (calculateRoundScore prop1 val1 prop2 val2).map fun s =>
    if s.1 > s.2 then "player1" else if s.2 > s.1 then "player2" else "tie"

end GameRules

/-- Modelled from the spec (section 4.2), for comparison with the code: the
four-step scoring algorithm, parametric in the dominance relation `dom`.
Step 1: equal properties, higher value wins the difference, equal values give
(0,0).  Step 2: A dominates B and strictly higher value.  Step 3: symmetric.
Step 4: everything else scores (0,0). -/
def specRoundScore {α : Type} [DecidableEq α] (dom : α → α → Bool)
    (propA : α) (valA : Nat) (propB : α) (valB : Nat) : Nat × Nat :=
  if propA = propB then
    if valA > valB then (valA - valB, 0)
    else if valB > valA then (0, valB - valA)
    else (0, 0)
  else if dom propA propB ∧ valA > valB then (valA - valB, 0)
  else if dom propB propA ∧ valB > valA then (0, valB - valA)
  else (0, 0)

/-- Dominance of the shared module, read off `GameRules.WINNING_RULES`. -/
def sharedDominates (p q : PName) : Bool := WINNING_RULES p = some q

/-- Shared `Card` (shared/core/card.js): id plus the three properties.
The legacy `rock`/`paper`/`scissors` fields are aliases of the three stored
properties and are represented through `Card.getProperty`. -/
structure Card where
  id : Nat
  deception : Nat
  magic : Nat
  attack : Nat
deriving DecidableEq, Repr

namespace Card

/-- `Card.isValidProperty` (instance method used by the constructor). -/
def isValidProperty (v : Nat) : Bool :=
  decide (1 ≤ v) && decide (v ≤ 9)

/-- The `Card` constructor: throws unless the three properties sum to 20 and
each lies in [1,9]; modelled as an `Option`. -/
def mk? (id deception magic attack : Nat) : Option Card :=
  if deception + magic + attack ≠ 20 then none
  else if ¬ (isValidProperty deception ∧ isValidProperty magic ∧ isValidProperty attack) then
    none
  else some ⟨id, deception, magic, attack⟩

/-- `Card.getProperty`, supporting legacy names through `propertyMap`. -/
def getProperty (c : Card) (p : PName) : Nat :=
  match normalizeProperty p with
  | .deception => c.deception
  | .magic => c.magic
  | _ => c.attack

/-- `Card.getHighestProperty`: JS `reduce` over the three (name, value) pairs
with the first pair as the accumulator seed. -/
def getHighestProperty (c : Card) : PName × Nat :=
  [((PName.magic : PName), c.magic), (PName.attack, c.attack)].foldl
    (fun mx cur => if cur.2 > mx.2 then cur else mx) (PName.deception, c.deception)

/-- `Card.getLowestProperty`. -/
def getLowestProperty (c : Card) : PName × Nat :=
  [((PName.magic : PName), c.magic), (PName.attack, c.attack)].foldl
    (fun mn cur => if cur.2 < mn.2 then cur else mn) (PName.deception, c.deception)

/-- `Card.isBalanced`: spread between highest and lowest at most 3. -/
def isBalanced (c : Card) : Bool :=
  c.getHighestProperty.2 - c.getLowestProperty.2 ≤ 3

/-- `Card.getRarity`. -/
def getRarity (c : Card) : String :=
  let d := c.getHighestProperty.2 - c.getLowestProperty.2
  if d ≤ 1 then "Legendary"
  else if d ≤ 3 then "Epic"
  else if d ≤ 5 then "Rare"
  else "Common"

/-- Shape of `Card.toJSON` output. -/
structure JSON where
  id : Nat
  deception : Nat
  magic : Nat
  attack : Nat
  rarity : String
  balanced : Bool
deriving DecidableEq, Repr

/-- `Card.toJSON`. -/
def toJSON (c : Card) : JSON :=
  ⟨c.id, c.deception, c.magic, c.attack, c.getRarity, c.isBalanced⟩

/-- `Card.fromJSON`: runs the validating constructor. -/
def fromJSON (j : JSON) : Option Card :=
  mk? j.id j.deception j.magic j.attack

/-- `cards.map(Card.fromJSON)` as used by `MatchManager.importState`:
sequential construction aborting at the first invalid card, as the JS `map`
would throw. -/
def fromJSONList : List JSON → Option (List Card)
  | [] => some []
  | j :: rest =>
    match fromJSON j with
    | none => none
    | some c => (fromJSONList rest).map (c :: ·)

end Card

namespace CardGenerator

/-- `CardGenerator.generateAllCards` (shared/core/card-generator.js):
deception and magic range over 1..9, attack is derived as `20 - d - m` and the
card is kept only when attack also lies in [1,9].  Card ids count up with each
attempted push (the constructor never throws here, so the `try` is the happy
path). -/
def generateAllCards : List Card :=
  (((List.range' 1 9).flatMap fun d => (List.range' 1 9).map fun m => (d, m)).foldl
    (fun (acc : List Card × Nat) dm =>
      let attack : Int := 20 - (dm.1 : Int) - (dm.2 : Int)
      if 1 ≤ attack ∧ attack ≤ 9 then
        match Card.mk? acc.2 dm.1 dm.2 attack.toNat with
        | some c => (acc.1 ++ [c], acc.2 + 1)
        | none => (acc.1, acc.2 + 1)
      else acc)
    ([], 0)).1

/-- `CardGenerator.validateCards`: every card satisfies the sum and range
invariants (the `instanceof Card` check is immediate from the Lean type). -/
def validateCards (cards : List Card) : Bool :=
  cards.all fun c =>
    decide (c.deception + c.magic + c.attack = 20) &&
    Card.isValidProperty c.deception && Card.isValidProperty c.magic &&
    Card.isValidProperty c.attack

end CardGenerator

/-- Console `Card` (console/game.js): stores rock/paper/scissors; its
constructor checks only that the properties sum to 20 (no range check). -/
structure CCard where
  rock : Nat
  paper : Nat
  scissors : Nat
deriving DecidableEq, Repr

/-- The console `Card` constructor: throws only when the sum is not 20. -/
def CCard.mk? (rock paper scissors : Nat) : Option CCard :=
  if rock + paper + scissors ≠ 20 then none
  else some ⟨rock, paper, scissors⟩

/-- Console property keys `'r'`, `'p'`, `'s'`. -/
inductive RPSName where
  | r
  | p
  | s
deriving DecidableEq, Repr, Fintype

/-- Console `Card.getProperty` via the `properties` map. -/
def CCard.getProperty (c : CCard) : RPSName → Nat
  | .r => c.rock
  | .p => c.paper
  | .s => c.scissors

/-- Console `config.WINNING_RULES` (also the inline `winning` tables in
`Game.calculateRoundScore` and `AIPlayer.calculateRoundScore`): rock beats
scissors, scissors beats paper, paper beats rock. -/
def consoleWinning : RPSName → RPSName
  | .r => .s
  | .s => .p
  | .p => .r

/-- The rock/paper/scissors → deception/magic/attack renaming: console key
`'r'` is Rock, and `GameRules.LEGACY_PROPERTY_MAP` sends rock to deception,
paper to magic, scissors to attack. -/
def rpsToCanonical : RPSName → PName
  | .r => .deception
  | .p => .magic
  | .s => .attack

/-- `CardGenerator.generateAllPossibleCards` (console/game.js): rock ranges
over 2..18, paper over 1..9, scissors is derived and filtered to [1,9]. -/
def consoleGenerateAllPossibleCards : List CCard :=
  (((List.range' 2 17).flatMap fun rock => (List.range' 1 9).map fun paper => (rock, paper)).foldl
    (fun (acc : List CCard) rp =>
      let scissors : Int := 20 - (rp.1 : Int) - (rp.2 : Int)
      if 1 ≤ scissors ∧ scissors ≤ 9 then
        match CCard.mk? rp.1 rp.2 scissors.toNat with
        | some c => acc ++ [c]
        | none => acc
      else acc)
    [])

/-- Console `Game.calculateRoundScore` (console/game.js): same four-step
shape as the shared rule, over the console names, with no input validation. -/
def consoleGameCalculateRoundScore (prop1 : RPSName) (val1 : Nat) (prop2 : RPSName)
    (val2 : Nat) : Nat × Nat :=
  if prop1 = prop2 then
    if val1 > val2 then (val1 - val2, 0)
    else if val2 > val1 then (0, val2 - val1)
    else (0, 0)
  else if consoleWinning prop1 = prop2 ∧ val1 > val2 then (val1 - val2, 0)
  else if consoleWinning prop2 = prop1 ∧ val2 > val1 then (0, val2 - val1)
  else (0, 0)

/-- Dominance encoded by the console modules. -/
def consoleDominates (x y : RPSName) : Bool := consoleWinning x = y

namespace GameConfig

/-- `GameConfig.GAME_MECHANICS.ROUNDS_PER_CARD`. -/
def ROUNDS_PER_CARD : Nat := 3

/-- `GameConfig.GAME_MECHANICS.TOTAL_CARD_GAMES`. -/
def TOTAL_CARD_GAMES : Nat := 3

/-- `GameConfig.GAME_MECHANICS.CARDS_PER_PLAYER`. -/
def CARDS_PER_PLAYER : Nat := 3

/-- `GameConfig.GAME_MECHANICS.AUTO_PLAY_FINAL_ROUND`. -/
def AUTO_PLAY_FINAL_ROUND : Bool := true

/-- `GameConfig.SCORING.WIN_BONUS` (also used for the streak bonus). -/
def WIN_BONUS : Nat := 0

/-- `GameConfig.SCORING.COMEBACK_BONUS`. -/
def COMEBACK_BONUS : Nat := 0

/-- `GameConfig.SCORING.MAX_SINGLE_ROUND_SCORE` (9 - 1). -/
def MAX_SINGLE_ROUND_SCORE : Nat := 8

/-- `GameConfig.AI_CONFIG.RANDOMNESS_FACTOR`. -/
def RANDOMNESS_FACTOR : ℚ := 1 / 10

/-- `GameConfig.getAllProperties`: the values of `GameConfig.PROPERTIES`. -/
def getAllProperties : List PName := [.deception, .magic, .attack]

/-- `GameConfig.isValidProperty`: canonical names or legacy aliases. -/
def isValidProperty (p : PName) : Bool :=
  getAllProperties.contains p || [PName.rock, PName.paper, PName.scissors].contains p

end GameConfig

/-- `GameConfig.GAME_PHASES`. -/
inductive Phase where
  | cardSelection
  | propertySelection
  | roundResult
  | autoRound
  | cardComplete
  | gameOver
  | waiting
deriving DecidableEq, Repr

/-- Round/card/match winner strings `'player1' | 'player2' | 'tie'`. -/
inductive Winner where
  | player1
  | player2
  | tie
deriving DecidableEq, Repr

/-- A round result as recorded by `RoundManager.calculateRoundResult`.
The display-only `explanation` string is elided. -/
structure RoundResult where
  round : Nat
  player1Property : PName
  player1Value : Nat
  player1Points : Nat
  player2Property : PName
  player2Value : Nat
  player2Points : Nat
  winner : Winner
deriving DecidableEq, Repr

/-- The mutable fields of a `RoundManager` instance. -/
structure RMState where
  currentRound : Nat
  maxRounds : Nat
  roundResults : List RoundResult
  usedPlayer1Properties : List PName
  usedPlayer2Properties : List PName
  currentPlayer1Property : Option PName
  currentPlayer2Property : Option PName
  roundPhase : Phase
  autoPlayEnabled : Bool
deriving DecidableEq, Repr

namespace RoundManager

/-- The `RoundManager` constructor. -/
def new : RMState where
  currentRound := 1
  maxRounds := GameConfig.ROUNDS_PER_CARD
  roundResults := []
  usedPlayer1Properties := []
  usedPlayer2Properties := []
  currentPlayer1Property := none
  currentPlayer2Property := none
  roundPhase := .propertySelection
  autoPlayEnabled := GameConfig.AUTO_PLAY_FINAL_ROUND

/-- `RoundManager.reset` (keeps `maxRounds` and `autoPlayEnabled`). -/
def reset (s : RMState) : RMState :=
  { s with
    currentRound := 1
    roundResults := []
    usedPlayer1Properties := []
    usedPlayer2Properties := []
    currentPlayer1Property := none
    currentPlayer2Property := none
    roundPhase := .propertySelection }

/-- `RoundManager.isFinalRound`. -/
def isFinalRound (s : RMState) : Bool :=
  s.currentRound = s.maxRounds

/-- `RoundManager.areAllRoundsComplete`. -/
def areAllRoundsComplete (s : RMState) : Bool :=
  s.currentRound > s.maxRounds

/-- `RoundManager.getAvailableProperties`: membership is tested on the raw
(unnormalized) property names, exactly as the JS `includes` does. -/
def getAvailableProperties (s : RMState) (playerNumber : Nat) : List PName :=
  let used := if playerNumber = 1 then s.usedPlayer1Properties else s.usedPlayer2Properties
  GameConfig.getAllProperties.filter fun prop => ¬ used.contains prop

/-- `RoundManager.isPropertyAvailable`: raw-name membership test. -/
def isPropertyAvailable (s : RMState) (playerNumber : Nat) (property : PName) : Bool :=
  let used := if playerNumber = 1 then s.usedPlayer1Properties else s.usedPlayer2Properties
  ¬ used.contains property

/-- `RoundManager.selectProperty`.  Returns the post-call state together with
`some` error message when the JS method throws; every throw happens before
any mutation, so the state component equals the input state on failure. -/
def selectProperty (s : RMState) (playerNumber : Nat) (property : PName) :
    RMState × Option String :=
  if ¬ GameConfig.isValidProperty property then (s, some "Invalid property")
  else if ¬ isPropertyAvailable s playerNumber property then
    (s, some "Property not available for player")
  else if playerNumber = 1 then
    ({ s with
        currentPlayer1Property := some property
        usedPlayer1Properties := s.usedPlayer1Properties ++ [property] }, none)
  else if playerNumber = 2 then
    ({ s with
        currentPlayer2Property := some property
        usedPlayer2Properties := s.usedPlayer2Properties ++ [property] }, none)
  else (s, some "Invalid player number")

/-- `RoundManager.isRoundReadyForCalculation`. -/
def isRoundReadyForCalculation (s : RMState) : Bool :=
  s.currentPlayer1Property.isSome && s.currentPlayer2Property.isSome

/-- `RoundManager.determineRoundWinner`. -/
def determineRoundWinner (player1Points player2Points : Nat) : Winner :=
  if player1Points > player2Points then .player1
  else if player2Points > player1Points then .player2
  else .tie

/-- `RoundManager.calculateRoundResult`.  The state component equals the
input state whenever an error is reported (both throws precede mutation). -/
def calculateRoundResult (s : RMState) (player1Card player2Card : Card) :
    RMState × Except String RoundResult :=
  match s.currentPlayer1Property, s.currentPlayer2Property with
  | some p1, some p2 =>
    let player1Value := player1Card.getProperty p1
    let player2Value := player2Card.getProperty p2
    match GameRules.calculateRoundScore p1 player1Value p2 player2Value with
    | none => (s, .error "Invalid round score inputs")
    | some (player1Points, player2Points) =>
      let roundResult : RoundResult :=
        { round := s.currentRound
          player1Property := p1
          player1Value := player1Value
          player1Points := player1Points
          player2Property := p2
          player2Value := player2Value
          player2Points := player2Points
          winner := determineRoundWinner player1Points player2Points }
      ({ s with
          roundResults := s.roundResults ++ [roundResult]
          roundPhase := .roundResult }, .ok roundResult)
  | _, _ => (s, .error "Round not ready for calculation - missing property selections")

/-- `RoundManager.advanceToNextRound`: returns `false` without mutating when
all rounds are complete. -/
def advanceToNextRound (s : RMState) : RMState × Bool :=
  if areAllRoundsComplete s then (s, false)
  else
    ({ s with
        currentRound := s.currentRound + 1
        currentPlayer1Property := none
        currentPlayer2Property := none
        roundPhase := .propertySelection }, true)

/-- `RoundManager.shouldAutoPlayRound`. -/
def shouldAutoPlayRound (s : RMState) : Bool :=
  s.autoPlayEnabled && isFinalRound s &&
    (getAvailableProperties s 1).length = 1 && (getAvailableProperties s 2).length = 1

/-- `RoundManager.autoPlayRound`: selects the single remaining property for
each side, marks the auto-round phase and resolves the round. -/
def autoPlayRound (s : RMState) (player1Card player2Card : Card) :
    RMState × Except String RoundResult :=
  if ¬ shouldAutoPlayRound s then (s, .error "Round cannot be auto-played")
  else
    match (getAvailableProperties s 1).head?, (getAvailableProperties s 2).head? with
    | some p1, some p2 =>
      let (s1, e1) := selectProperty s 1 p1
      match e1 with
      | some msg => (s1, .error msg)
      | none =>
        let (s2, e2) := selectProperty s1 2 p2
        match e2 with
        | some msg => (s2, .error msg)
        | none =>
          let s3 := { s2 with roundPhase := Phase.autoRound }
          calculateRoundResult s3 player1Card player2Card
    | _, _ => (s, .error "Round cannot be auto-played")

/-- `RoundManager.validateState`. -/
def validateState (s : RMState) : Bool :=
  (decide (1 ≤ s.currentRound) && decide (s.currentRound ≤ s.maxRounds + 1)) &&
  (decide (s.usedPlayer1Properties.length ≤ s.maxRounds) &&
   decide (s.usedPlayer2Properties.length ≤ s.maxRounds)) &&
  (decide (s.usedPlayer1Properties.dedup.length = s.usedPlayer1Properties.length) &&
   decide (s.usedPlayer2Properties.dedup.length = s.usedPlayer2Properties.length)) &&
  decide (s.roundResults.length = min (s.currentRound - 1) s.maxRounds)

/-- `RoundManager.exportState`: a field-for-field plain-data copy, so the
export tree shares the state record type. -/
def exportState (s : RMState) : RMState := s

/-- `RoundManager.importState`: restores each field applying the JS `||`
defaults (a `0` number falls back, arrays and non-empty values are kept),
then re-validates. -/
def importState (t : RMState) : Except String RMState :=
  let s : RMState :=
    { currentRound := if t.currentRound = 0 then 1 else t.currentRound
      maxRounds := if t.maxRounds = 0 then GameConfig.ROUNDS_PER_CARD else t.maxRounds
      roundResults := t.roundResults
      usedPlayer1Properties := t.usedPlayer1Properties
      usedPlayer2Properties := t.usedPlayer2Properties
      currentPlayer1Property := t.currentPlayer1Property
      currentPlayer2Property := t.currentPlayer2Property
      roundPhase := t.roundPhase
      autoPlayEnabled := t.autoPlayEnabled }
  if validateState s then .ok s else .error "Invalid round manager state imported"

end RoundManager

/-- `Date.now()`: modelled as a constant because the engine records but never
branches on wall-clock readings. -/
def dateNow : Nat := 0

/-- One entry of `ScoreManager.scoreHistory`. -/
structure ScoreChange where
  timestamp : Nat
  player : Nat
  points : Nat
  source : String
  previousScore : Nat
  newScore : Nat
deriving DecidableEq, Repr

/-- One entry of `ScoreManager.cardScores`. -/
structure CardScore where
  cardGame : Nat
  player1Score : Nat
  player2Score : Nat
  winner : Winner
  rounds : List RoundResult
deriving DecidableEq, Repr

/-- `ScoreManager.initPlayerStats`.  `averagePerRound` is a JS float
quotient, modelled as an exact rational. -/
structure PlayerStats where
  totalPoints : Nat
  roundsWon : Nat
  roundsLost : Nat
  roundsTied : Nat
  cardsWon : Nat
  cardsLost : Nat
  cardsTied : Nat
  highestSingleRound : Nat
  averagePerRound : ℚ
  winStreak : Nat
  currentStreak : Nat
  comebacks : Nat
deriving DecidableEq, Repr

/-- The mutable fields of a `ScoreManager` instance (`bonusPoints` split into
its two entries). -/
structure SMState where
  player1Score : Nat
  player2Score : Nat
  scoreHistory : List ScoreChange
  cardScores : List CardScore
  bonusPoints1 : Nat
  bonusPoints2 : Nat
  stats1 : PlayerStats
  stats2 : PlayerStats
deriving DecidableEq, Repr

namespace ScoreManager

/-- Zeroed statistics record. -/
def initPlayerStats : PlayerStats :=
  { totalPoints := 0, roundsWon := 0, roundsLost := 0, roundsTied := 0
    cardsWon := 0, cardsLost := 0, cardsTied := 0, highestSingleRound := 0
    averagePerRound := 0, winStreak := 0, currentStreak := 0, comebacks := 0 }

/-- The `ScoreManager` constructor. -/
def new : SMState where
  player1Score := 0
  player2Score := 0
  scoreHistory := []
  cardScores := []
  bonusPoints1 := 0
  bonusPoints2 := 0
  stats1 := initPlayerStats
  stats2 := initPlayerStats

/-- `ScoreManager.getScore`. -/
def getScore (s : SMState) (playerNumber : Nat) : Nat :=
  if playerNumber = 1 then s.player1Score else s.player2Score

/-- `ScoreManager.getScores` as a pair `(player1, player2)`. -/
def getScores (s : SMState) : Nat × Nat :=
  (s.player1Score, s.player2Score)

/-- `ScoreManager.recordScoreChange`. -/
def recordScoreChange (s : SMState) (playerNumber points : Nat) (source : String)
    (previousScore : Nat) : SMState :=
  { s with
    scoreHistory := s.scoreHistory ++
      [{ timestamp := dateNow, player := playerNumber, points := points, source := source
         previousScore := previousScore, newScore := getScore s playerNumber }] }

/-- `ScoreManager.addPoints` for `playerNumber ∈ {1, 2}` (the negative-points
and invalid-player throws are unreachable from the engine call sites, which
pass `Nat` points and the literals 1 and 2; on the unreachable branch the
state is returned unchanged, matching a throw before mutation). -/
def addPoints (s : SMState) (playerNumber points : Nat) (source : String) : SMState :=
  let previousScore := getScore s playerNumber
  if playerNumber = 1 then
    let s1 := { s with
      player1Score := s.player1Score + points
      stats1 := { s.stats1 with totalPoints := s.stats1.totalPoints + points } }
    recordScoreChange s1 playerNumber points source previousScore
  else if playerNumber = 2 then
    let s1 := { s with
      player2Score := s.player2Score + points
      stats2 := { s.stats2 with totalPoints := s.stats2.totalPoints + points } }
    recordScoreChange s1 playerNumber points source previousScore
  else s

/-- `ScoreManager.updateWinStreak`. -/
def updateWinStreak (s : SMState) (winnerNumber : Nat) : SMState :=
  if winnerNumber = 1 then
    { s with
      stats1 := { s.stats1 with
        currentStreak := s.stats1.currentStreak + 1
        winStreak := max s.stats1.winStreak (s.stats1.currentStreak + 1) }
      stats2 := { s.stats2 with currentStreak := 0 } }
  else
    { s with
      stats2 := { s.stats2 with
        currentStreak := s.stats2.currentStreak + 1
        winStreak := max s.stats2.winStreak (s.stats2.currentStreak + 1) }
      stats1 := { s.stats1 with currentStreak := 0 } }

/-- `ScoreManager.resetWinStreaks`. -/
def resetWinStreaks (s : SMState) : SMState :=
  { s with
    stats1 := { s.stats1 with currentStreak := 0 }
    stats2 := { s.stats2 with currentStreak := 0 } }

/-- `ScoreManager.updateAverages`. -/
def updateAverages (s : SMState) : SMState :=
  let rounds1 := s.stats1.roundsWon + s.stats1.roundsLost + s.stats1.roundsTied
  let rounds2 := s.stats2.roundsWon + s.stats2.roundsLost + s.stats2.roundsTied
  let s := if rounds1 > 0 then
      { s with stats1 := { s.stats1 with
          averagePerRound := (s.stats1.totalPoints : ℚ) / (rounds1 : ℚ) } }
    else s
  if rounds2 > 0 then
    { s with stats2 := { s.stats2 with
        averagePerRound := (s.stats2.totalPoints : ℚ) / (rounds2 : ℚ) } }
  else s

/-- `ScoreManager.updateRoundStatistics`. -/
def updateRoundStatistics (s : SMState) (roundResult : RoundResult) : SMState :=
  let s :=
    match roundResult.winner with
    | .player1 =>
      updateWinStreak
        { s with
          stats1 := { s.stats1 with roundsWon := s.stats1.roundsWon + 1 }
          stats2 := { s.stats2 with roundsLost := s.stats2.roundsLost + 1 } } 1
    | .player2 =>
      updateWinStreak
        { s with
          stats2 := { s.stats2 with roundsWon := s.stats2.roundsWon + 1 }
          stats1 := { s.stats1 with roundsLost := s.stats1.roundsLost + 1 } } 2
    | .tie =>
      resetWinStreaks
        { s with
          stats1 := { s.stats1 with roundsTied := s.stats1.roundsTied + 1 }
          stats2 := { s.stats2 with roundsTied := s.stats2.roundsTied + 1 } }
  let s :=
    if roundResult.player1Points > s.stats1.highestSingleRound then
      { s with stats1 := { s.stats1 with highestSingleRound := roundResult.player1Points } }
    else s
  let s :=
    if roundResult.player2Points > s.stats2.highestSingleRound then
      { s with stats2 := { s.stats2 with highestSingleRound := roundResult.player2Points } }
    else s
  updateAverages s

/-- `ScoreManager.addBonusPoints`: a no-op unless the bonus is positive. -/
def addBonusPoints (s : SMState) (playerNumber points : Nat) (bonusType : String) : SMState :=
  if points > 0 then
    let s1 := addPoints s playerNumber points ("bonus_" ++ bonusType)
    if playerNumber = 1 then { s1 with bonusPoints1 := s1.bonusPoints1 + points }
    else { s1 with bonusPoints2 := s1.bonusPoints2 + points }
  else s

/-- `ScoreManager.checkForBonuses`. -/
def checkForBonuses (s : SMState) (roundResult : RoundResult) : SMState :=
  let s :=
    if roundResult.player1Points = GameConfig.MAX_SINGLE_ROUND_SCORE then
      addBonusPoints s 1 GameConfig.WIN_BONUS "perfect_round"
    else s
  let s :=
    if roundResult.player2Points = GameConfig.MAX_SINGLE_ROUND_SCORE then
      addBonusPoints s 2 GameConfig.WIN_BONUS "perfect_round"
    else s
  let s :=
    if s.stats1.currentStreak ≥ 3 then addBonusPoints s 1 GameConfig.WIN_BONUS "win_streak"
    else s
  if s.stats2.currentStreak ≥ 3 then addBonusPoints s 2 GameConfig.WIN_BONUS "win_streak"
  else s

/-- `ScoreManager.processRoundResult` (the `cardGame` and `round` arguments
are unused by the JS body beyond being passed along). -/
def processRoundResult (s : SMState) (roundResult : RoundResult) : SMState :=
  let s := if roundResult.player1Points > 0 then addPoints s 1 roundResult.player1Points "round"
    else s
  let s := if roundResult.player2Points > 0 then addPoints s 2 roundResult.player2Points "round"
    else s
  let s := updateRoundStatistics s roundResult
  checkForBonuses s roundResult

/-- `ScoreManager.getCurrentWinner`. -/
def getCurrentWinner (s : SMState) : Winner :=
  if s.player1Score > s.player2Score then .player1
  else if s.player2Score > s.player1Score then .player2
  else .tie

/-- `ScoreManager.getScoreDifference`. -/
def getScoreDifference (s : SMState) : Int :=
  (s.player1Score : Int) - (s.player2Score : Int)

/-- `ScoreManager.checkForComebacks`. -/
def checkForComebacks (s : SMState) (cardResult : CardScore) : SMState :=
  if cardResult.winner = Winner.player1 ∧ s.player1Score < s.player2Score then
    addBonusPoints
      { s with stats1 := { s.stats1 with comebacks := s.stats1.comebacks + 1 } }
      1 GameConfig.COMEBACK_BONUS "comeback"
  else if cardResult.winner = Winner.player2 ∧ s.player2Score < s.player1Score then
    addBonusPoints
      { s with stats2 := { s.stats2 with comebacks := s.stats2.comebacks + 1 } }
      2 GameConfig.COMEBACK_BONUS "comeback"
  else s

/-- `ScoreManager.completeCardGame`. -/
def completeCardGame (s : SMState) (roundResults : List RoundResult) (cardGame : Nat) :
    SMState :=
  let player1CardScore := roundResults.foldl (fun sum r => sum + r.player1Points) 0
  let player2CardScore := roundResults.foldl (fun sum r => sum + r.player2Points) 0
  let cardResult : CardScore :=
    { cardGame := cardGame
      player1Score := player1CardScore
      player2Score := player2CardScore
      winner :=
        if player1CardScore > player2CardScore then .player1
        else if player2CardScore > player1CardScore then .player2
        else .tie
      rounds := roundResults }
  let s := { s with cardScores := s.cardScores ++ [cardResult] }
  let s :=
    match cardResult.winner with
    | .player1 =>
      { s with
        stats1 := { s.stats1 with cardsWon := s.stats1.cardsWon + 1 }
        stats2 := { s.stats2 with cardsLost := s.stats2.cardsLost + 1 } }
    | .player2 =>
      { s with
        stats2 := { s.stats2 with cardsWon := s.stats2.cardsWon + 1 }
        stats1 := { s.stats1 with cardsLost := s.stats1.cardsLost + 1 } }
    | .tie =>
      { s with
        stats1 := { s.stats1 with cardsTied := s.stats1.cardsTied + 1 }
        stats2 := { s.stats2 with cardsTied := s.stats2.cardsTied + 1 } }
  checkForComebacks s cardResult

/-- `ScoreManager.getScoreBreakdown` output shape. -/
structure Breakdown where
  current : Nat × Nat
  bonus : Nat × Nat
  difference : Int
  winner : Winner
  cardScores : List CardScore
  stats1 : PlayerStats
  stats2 : PlayerStats
deriving DecidableEq, Repr

/-- `ScoreManager.getScoreBreakdown`. -/
def getScoreBreakdown (s : SMState) : Breakdown :=
  { current := getScores s
    bonus := (s.bonusPoints1, s.bonusPoints2)
    difference := getScoreDifference s
    winner := getCurrentWinner s
    cardScores := s.cardScores
    stats1 := s.stats1
    stats2 := s.stats2 }

/-- `ScoreManager.validateState` (the non-negativity check is immediate on
`Nat` scores and kept implicit). -/
def validateState (s : SMState) : Bool :=
  (decide (s.stats1.totalPoints = s.player1Score) &&
   decide (s.stats2.totalPoints = s.player2Score)) &&
  (decide ((s.cardScores.foldl (fun sum c => sum + c.player1Score) 0) ≤ s.player1Score) &&
   decide ((s.cardScores.foldl (fun sum c => sum + c.player2Score) 0) ≤ s.player2Score))

/-- `ScoreManager.exportState`: a plain-data copy sharing the record type. -/
def exportState (s : SMState) : SMState := s

/-- `ScoreManager.importState`: the `|| 0` defaults are the identity on
`Nat` scores, arrays are truthy in JS and copied as-is, and the statistics
spread merge is the identity because every key is present; the restored
state is then re-validated. -/
def importState (t : SMState) : Except String SMState :=
  if validateState t then .ok t else .error "Invalid score manager state imported"

end ScoreManager

/-- One entry of `MatchManager.cardGameResults`. -/
structure CardGameResult where
  cardGame : Nat
  player1Card : Option Nat
  player2Card : Option Nat
  rounds : List RoundResult
  scores : Nat × Nat
  winner : Winner
deriving DecidableEq, Repr

/-- `MatchManager.matchResult` as frozen by `completeMatch`. -/
structure MatchResult where
  matchId : String
  winner : Winner
  finalScores : Nat × Nat
  cardResults : List CardGameResult
  statistics : ScoreManager.Breakdown
  duration : Nat
  completedAt : Nat
deriving DecidableEq, Repr

/-- The mutable fields of a `MatchManager` instance.  The UI-only fields
`autoProgressCards`, `allowSpectators` and `timeouts` are elided: the engine
sets but never reads them. -/
structure MMState where
  matchId : String
  gameMode : String
  player1Cards : List Card
  player2Cards : List Card
  currentCardGame : Nat
  maxCardGames : Nat
  matchPhase : Phase
  player1SelectedCard : Option Nat
  player2SelectedCard : Option Nat
  roundManager : RMState
  scoreManager : SMState
  cardGameResults : List CardGameResult
  matchResult : Option MatchResult
  startTime : Nat
  endTime : Option Nat
deriving DecidableEq, Repr

namespace MatchManager

/-- `MatchManager.validatePlayerCards` (the `Array.isArray` and
`instanceof Card` checks are immediate from the Lean types). -/
def validatePlayerCards (player1Cards player2Cards : List Card) : Bool :=
  (decide (player1Cards.length = GameConfig.CARDS_PER_PLAYER) &&
   decide (player2Cards.length = GameConfig.CARDS_PER_PLAYER)) &&
  decide (((player1Cards.map Card.id).filter
    (fun id => (player2Cards.map Card.id).contains id)).length = 0)

/-- The `MatchManager` constructor.  Its `Date.now()`/random match-id is
passed in as `matchId`; the invalid-cards throw becomes an error value. -/
def new (player1Cards player2Cards : List Card) (gameMode matchId : String) :
    Except String MMState :=
  if ¬ validatePlayerCards player1Cards player2Cards then
    .error "Invalid player cards provided"
  else
    .ok
      { matchId := matchId
        gameMode := gameMode
        player1Cards := player1Cards
        player2Cards := player2Cards
        currentCardGame := 1
        maxCardGames := GameConfig.TOTAL_CARD_GAMES
        matchPhase := .cardSelection
        player1SelectedCard := none
        player2SelectedCard := none
        roundManager := RoundManager.new
        scoreManager := ScoreManager.new
        cardGameResults := []
        matchResult := none
        startTime := dateNow
        endTime := none }

/-- `MatchManager.startMatch` (the returned info object is the state). -/
def startMatch (s : MMState) : MMState :=
  { s with matchPhase := .cardSelection, startTime := dateNow }

/-- `MatchManager.canProceedToPropertySelection`. -/
def canProceedToPropertySelection (s : MMState) : Bool :=
  s.player1SelectedCard.isSome && s.player2SelectedCard.isSome

/-- `MatchManager.startPropertySelection`. -/
def startPropertySelection (s : MMState) : MMState :=
  { s with
    matchPhase := .propertySelection
    roundManager := RoundManager.reset s.roundManager }

/-- `MatchManager.selectCard`.  All three throws precede any mutation, so the
state component equals the input state whenever an error is reported. -/
def selectCard (s : MMState) (playerNumber cardIndex : Nat) : MMState × Option String :=
  if s.matchPhase ≠ Phase.cardSelection then (s, some "Cannot select card during phase")
  else
    let cards := if playerNumber = 1 then s.player1Cards else s.player2Cards
    if cardIndex ≥ cards.length then (s, some "Invalid card index")
    else if cardIndex < s.currentCardGame - 1 then
      (s, some "Card already used in previous card game")
    else
      let s :=
        if playerNumber = 1 then { s with player1SelectedCard := some cardIndex }
        else { s with player2SelectedCard := some cardIndex }
      if canProceedToPropertySelection s then (startPropertySelection s, none)
      else (s, none)

/-- `MatchManager.completeMatch`. -/
def completeMatch (s : MMState) : MMState :=
  let endTime := dateNow
  let s := { s with endTime := some endTime, matchPhase := Phase.gameOver }
  { s with
    matchResult := some
      { matchId := s.matchId
        winner := ScoreManager.getCurrentWinner s.scoreManager
        finalScores := ScoreManager.getScores s.scoreManager
        cardResults := s.cardGameResults
        statistics := ScoreManager.getScoreBreakdown s.scoreManager
        duration := endTime - s.startTime
        completedAt := endTime } }

/-- `MatchManager.completeCardGame`. -/
def completeCardGame (s : MMState) : MMState :=
  let roundResults := s.roundManager.roundResults
  let sm := ScoreManager.completeCardGame s.scoreManager roundResults s.currentCardGame
  let s := { s with scoreManager := sm }
  let cardGameResult : CardGameResult :=
    { cardGame := s.currentCardGame
      player1Card := s.player1SelectedCard
      player2Card := s.player2SelectedCard
      rounds := roundResults
      scores := ScoreManager.getScores sm
      winner := ScoreManager.getCurrentWinner sm }
  let s :=
    { s with
      cardGameResults := s.cardGameResults ++ [cardGameResult]
      matchPhase := Phase.cardComplete }
  if s.currentCardGame ≥ s.maxCardGames then completeMatch s else s

/-- `MatchManager.autoPlayFinalRound`. -/
def autoPlayFinalRound (s : MMState) : MMState × Option String :=
  match s.player1SelectedCard, s.player2SelectedCard with
  | some i1, some i2 =>
    match s.player1Cards.get? i1, s.player2Cards.get? i2 with
    | some player1Card, some player2Card =>
      let (rm, res) := RoundManager.autoPlayRound s.roundManager player1Card player2Card
      match res with
      | .error e => ({ s with roundManager := rm }, some e)
      | .ok roundResult =>
        let s := { s with roundManager := rm }
        let s :=
          { s with scoreManager := ScoreManager.processRoundResult s.scoreManager roundResult }
        (completeCardGame s, none)
    | _, _ => (s, some "Selected card missing")
  | _, _ => (s, some "Selected card missing")

/-- `MatchManager.calculateRound`. -/
def calculateRound (s : MMState) : MMState × Option String :=
  match s.player1SelectedCard, s.player2SelectedCard with
  | some i1, some i2 =>
    match s.player1Cards.get? i1, s.player2Cards.get? i2 with
    | some player1Card, some player2Card =>
      let (rm, res) := RoundManager.calculateRoundResult s.roundManager player1Card player2Card
      match res with
      | .error e => ({ s with roundManager := rm }, some e)
      | .ok roundResult =>
        let s := { s with roundManager := rm }
        let s :=
          { s with scoreManager := ScoreManager.processRoundResult s.scoreManager roundResult }
        let s := { s with matchPhase := Phase.roundResult }
        if RoundManager.areAllRoundsComplete s.roundManager then (completeCardGame s, none)
        else if RoundManager.shouldAutoPlayRound s.roundManager then autoPlayFinalRound s
        else (s, none)
    | _, _ => (s, some "Selected card missing")
  | _, _ => (s, some "Selected card missing")

/-- `MatchManager.selectProperty`: phase guard, then delegation to the round
manager, then round resolution once both sides have selected. -/
def selectProperty (s : MMState) (playerNumber : Nat) (property : PName) :
    MMState × Option String :=
  if s.matchPhase ≠ Phase.propertySelection then
    (s, some "Cannot select property during phase")
  else
    let (rm, err) := RoundManager.selectProperty s.roundManager playerNumber property
    match err with
    | some e => ({ s with roundManager := rm }, some e)
    | none =>
      let s := { s with roundManager := rm }
      if RoundManager.isRoundReadyForCalculation rm then calculateRound s
      else (s, none)

/-- `MatchManager.advanceToNextRound`. -/
def advanceToNextRound (s : MMState) : MMState × Bool :=
  if s.matchPhase ≠ Phase.roundResult then (s, false)
  else
    let (rm, advanced) := RoundManager.advanceToNextRound s.roundManager
    let s := { s with roundManager := rm }
    if advanced then ({ s with matchPhase := Phase.propertySelection }, true)
    else (s, false)

/-- `MatchManager.advanceToNextCard`. -/
def advanceToNextCard (s : MMState) : MMState × Bool :=
  if s.matchPhase ≠ Phase.cardComplete then (s, false)
  else if s.currentCardGame ≥ s.maxCardGames then (completeMatch s, false)
  else
    ({ s with
        currentCardGame := s.currentCardGame + 1
        player1SelectedCard := none
        player2SelectedCard := none
        matchPhase := Phase.cardSelection }, true)

/-- `MatchManager.isMatchComplete`. -/
def isMatchComplete (s : MMState) : Bool :=
  s.matchPhase = Phase.gameOver

/-- `MatchManager.validateState`. -/
def validateState (s : MMState) : Bool :=
  (decide (1 ≤ s.currentCardGame) && decide (s.currentCardGame ≤ s.maxCardGames + 1)) &&
  (match s.player1SelectedCard with
   | none => true
   | some i => decide (i < s.player1Cards.length)) &&
  (match s.player2SelectedCard with
   | none => true
   | some i => decide (i < s.player2Cards.length)) &&
  RoundManager.validateState s.roundManager &&
  ScoreManager.validateState s.scoreManager

/-- The plain-data tree produced by `MatchManager.exportState`. -/
structure Export where
  matchId : String
  gameMode : String
  player1Cards : List Card.JSON
  player2Cards : List Card.JSON
  currentCardGame : Nat
  maxCardGames : Nat
  matchPhase : Phase
  player1SelectedCard : Option Nat
  player2SelectedCard : Option Nat
  cardGameResults : List CardGameResult
  matchResult : Option MatchResult
  startTime : Nat
  endTime : Option Nat
  roundManager : RMState
  scoreManager : SMState
deriving DecidableEq, Repr

/-- `MatchManager.exportState`. -/
def exportState (s : MMState) : Export :=
  { matchId := s.matchId
    gameMode := s.gameMode
    player1Cards := s.player1Cards.map Card.toJSON
    player2Cards := s.player2Cards.map Card.toJSON
    currentCardGame := s.currentCardGame
    maxCardGames := s.maxCardGames
    matchPhase := s.matchPhase
    player1SelectedCard := s.player1SelectedCard
    player2SelectedCard := s.player2SelectedCard
    cardGameResults := s.cardGameResults
    matchResult := s.matchResult
    startTime := s.startTime
    endTime := s.endTime
    roundManager := RoundManager.exportState s.roundManager
    scoreManager := ScoreManager.exportState s.scoreManager }

/-- `MatchManager.importState`.  `Card.fromJSON` re-runs the validating card
constructor; the `||` defaults fall back on JS-falsy values (`0` numbers,
empty strings; arrays and the `Phase` enum values are always truthy, and
`Date.now()` at import time is the explicit `now` argument); the sub-manager
state is re-validated on import, and the rebuilt state is validated whole. -/
def importState (t : Export) (now : Nat) : Except String MMState :=
  match Card.fromJSONList t.player1Cards, Card.fromJSONList t.player2Cards with
  | some player1Cards, some player2Cards =>
    match RoundManager.importState t.roundManager with
    | .error e => .error e
    | .ok rm =>
      match ScoreManager.importState t.scoreManager with
      | .error e => .error e
      | .ok sm =>
        let s : MMState :=
          { matchId := t.matchId
            gameMode := if t.gameMode = "" then "demo" else t.gameMode
            player1Cards := player1Cards
            player2Cards := player2Cards
            currentCardGame := if t.currentCardGame = 0 then 1 else t.currentCardGame
            maxCardGames :=
              if t.maxCardGames = 0 then GameConfig.TOTAL_CARD_GAMES else t.maxCardGames
            matchPhase := t.matchPhase
            player1SelectedCard := t.player1SelectedCard
            player2SelectedCard := t.player2SelectedCard
            roundManager := rm
            scoreManager := sm
            cardGameResults := t.cardGameResults
            matchResult := t.matchResult
            startTime := if t.startTime = 0 then now else t.startTime
            endTime := t.endTime }
        if validateState s then .ok s else .error "Invalid match state imported"
  | _, _ => .error "Card properties invalid in imported state"

end MatchManager

/-- `GameConfig.AI_CONFIG.DIFFICULTY_LEVELS` (an unrecognized difficulty
string falls into the `switch` default, which returns the base score
unchanged; the four named levels cover the claims). -/
inductive Difficulty where
  | easy
  | normal
  | hard
  | expert
deriving DecidableEq, Repr

namespace AIStrategy

/-- `AIStrategy.calculateCardSynergy`.  (The JS `otherProperties` local is
dead code and elided.) -/
def calculateCardSynergy (card : Card) (property : PName) : ℚ :=
  let myValue := card.getProperty property
  if property = card.getHighestProperty.1 then 1 / 2
  else if property = card.getLowestProperty.1 ∧ myValue < 5 then -(3 / 10)
  else if card.isBalanced then 2 / 10
  else 0

/-- `AIStrategy.calculatePositionalAdvantage`. -/
def calculatePositionalAdvantage (card : Card) (property : PName) : ℚ :=
  let myValue := card.getProperty property
  if myValue ≥ 8 then 3 / 10
  else if myValue ≥ 6 then 1 / 10
  else if myValue ≤ 2 then -(2 / 10)
  else 0

/-- `AIStrategy.applyDifficultyModifier`.  The JS `Math.random()` reading is
passed in explicitly as `noise ∈ [0,1)`; floats are modelled as exact
rationals. -/
def applyDifficultyModifier (baseScore : ℚ) (difficulty : Difficulty) (card : Card)
    (property : PName) (noise : ℚ) : ℚ :=
  match difficulty with
  | .easy => baseScore + (noise - 1 / 2) * 2
  | .normal => baseScore + (noise - 1 / 2) * GameConfig.RANDOMNESS_FACTOR
  | .hard => baseScore + calculateCardSynergy card property
  | .expert =>
    baseScore + calculateCardSynergy card property + calculatePositionalAdvantage card property

/-- `AIStrategy.evaluateMove`: average net score over all opponent cards and
unused opponent properties, then the difficulty modifier.  A score-rule throw
(`none`) aborts the whole evaluation, as the JS exception would. -/
def evaluateMove (card : Card) (property : PName) (allPossibleOpponentCards : List Card)
    (usedOpponentProperties : List PName) (difficulty : Difficulty) (noise : ℚ) : Option ℚ :=
  let myValue := card.getProperty property
  let opponentAvailableProps :=
    GameConfig.getAllProperties.filter fun prop => ¬ usedOpponentProperties.contains prop
  match
    allPossibleOpponentCards.foldlM
      (fun (acc : ℚ × Nat) opponentCard =>
        opponentAvailableProps.foldlM
          (fun (acc2 : ℚ × Nat) oppProperty =>
            match
              GameRules.calculateRoundScore property myValue oppProperty
                (opponentCard.getProperty oppProperty)
            with
            | none => none
            | some (myScore, oppScore) =>
              some (acc2.1 + ((myScore : ℚ) - (oppScore : ℚ)), acc2.2 + 1))
          acc)
      ((0 : ℚ), 0)
  with
  | none => none
  | some (totalScore, scenarioCount) =>
    let avgScore := if scenarioCount > 0 then totalScore / (scenarioCount : ℚ) else 0
    some (applyDifficultyModifier avgScore difficulty card property noise)

/-- The `forEach` accumulation loop of `AIStrategy.chooseBestProperty`: the
JS `-Infinity` seed is the `none` best score (any first evaluation beats it);
`i` indexes the `Math.random()` stream consumed one reading per candidate. -/
def chooseLoop (card : Card) (allOpp : List Card) (usedOpp : List PName)
    (difficulty : Difficulty) (rng : Nat → ℚ) :
    List PName → Nat → Option ℚ → PName → Except String PName
  | [], _, _, bestProperty => .ok bestProperty
  | property :: rest, i, bestScore, bestProperty =>
    match evaluateMove card property allOpp usedOpp difficulty (rng i) with
    | none => .error "Invalid round score inputs"
    | some score =>
      if (match bestScore with
          | none => true
          | some b => decide (score > b)) then
        chooseLoop card allOpp usedOpp difficulty rng rest (i + 1) (some score) property
      else chooseLoop card allOpp usedOpp difficulty rng rest (i + 1) bestScore bestProperty

/-- `AIStrategy.chooseBestProperty`: empty candidate list throws, a single
candidate short-circuits, otherwise every candidate is evaluated starting
from the first as the incumbent. -/
def chooseBestProperty (card : Card) (availableProperties : List PName)
    (allPossibleOpponentCards : List Card) (usedOpponentProperties : List PName)
    (difficulty : Difficulty) (rng : Nat → ℚ) : Except String PName :=
  match availableProperties with
  | [] => .error "No available properties for AI"
  | [p] => .ok p
  | p0 :: rest =>
    chooseLoop card allPossibleOpponentCards usedOpponentProperties difficulty rng
      (p0 :: rest) 0 none p0

end AIStrategy

/-! Concrete match fixtures: two valid three-card hands with distinct ids,
and driver-style step combinators used to run the engine operations in
sequence (a step that reports an error aborts the run, as a thrown JS
exception would abort a driver script). -/

/-- Side 1 hand: three valid cards (sum 20, properties in [1,9]). -/
def sideACards : List Card := [⟨0, 2, 9, 9⟩, ⟨1, 3, 8, 9⟩, ⟨2, 4, 7, 9⟩]

/-- Side 2 hand: three valid cards with ids disjoint from side 1. -/
def sideBCards : List Card := [⟨3, 5, 8, 7⟩, ⟨4, 6, 7, 7⟩, ⟨5, 9, 2, 9⟩]

/-- Run an error-reporting engine operation as a trace step. -/
def stepE (f : MMState → MMState × Option String) (r : Except String MMState) :
    Except String MMState :=
  match r with
  | .error e => .error e
  | .ok s =>
    match f s with
    | (s', none) => .ok s'
    | (_, some e) => .error e

/-- Run a total engine operation as a trace step. -/
def stepT (f : MMState → MMState) (r : Except String MMState) : Except String MMState :=
  r.map f

/-- Run a boolean-returning engine operation as a trace step. -/
def stepA (f : MMState → MMState × Bool) (r : Except String MMState) : Except String MMState :=
  r.map fun s => (f s).1

/-- A full card-game played through the public interface with round 3
resolved by explicit property selections (both sides pick card index 0,
then play deception, magic, attack round by round). -/
def traceExplicitRound3 : Except String MMState :=
  MatchManager.new sideACards sideBCards "demo" "match-demo"
    |> stepE (MatchManager.selectCard · 1 0)
    |> stepE (MatchManager.selectCard · 2 0)
    |> stepE (MatchManager.selectProperty · 1 .deception)
    |> stepE (MatchManager.selectProperty · 2 .deception)
    |> stepA MatchManager.advanceToNextRound
    |> stepE (MatchManager.selectProperty · 1 .magic)
    |> stepE (MatchManager.selectProperty · 2 .magic)
    |> stepA MatchManager.advanceToNextRound
    |> stepE (MatchManager.selectProperty · 1 .attack)
    |> stepE (MatchManager.selectProperty · 2 .attack)

/-- A complete match in which card-game 1 is extended to a fourth round by
committing the legacy aliases `rock`/`rock` after round 3 (accepted because
availability is checked on raw names), while card-games 2 and 3 finish
normally through the auto-played final round. -/
def traceFourRoundMatch : Except String MMState :=
  traceExplicitRound3
    |> stepA MatchManager.advanceToNextRound
    |> stepE (MatchManager.selectProperty · 1 .rock)
    |> stepE (MatchManager.selectProperty · 2 .rock)
    |> stepA MatchManager.advanceToNextCard
    |> stepE (MatchManager.selectCard · 1 1)
    |> stepE (MatchManager.selectCard · 2 1)
    |> stepE (MatchManager.selectProperty · 1 .deception)
    |> stepE (MatchManager.selectProperty · 2 .deception)
    |> stepA MatchManager.advanceToNextRound
    |> stepE (MatchManager.selectProperty · 1 .magic)
    |> stepE (MatchManager.selectProperty · 2 .magic)
    |> stepA MatchManager.advanceToNextRound
    |> stepE MatchManager.autoPlayFinalRound
    |> stepA MatchManager.advanceToNextCard
    |> stepE (MatchManager.selectCard · 1 2)
    |> stepE (MatchManager.selectCard · 2 2)
    |> stepE (MatchManager.selectProperty · 1 .deception)
    |> stepE (MatchManager.selectProperty · 2 .deception)
    |> stepA MatchManager.advanceToNextRound
    |> stepE (MatchManager.selectProperty · 1 .magic)
    |> stepE (MatchManager.selectProperty · 2 .magic)
    |> stepA MatchManager.advanceToNextRound
    |> stepE MatchManager.autoPlayFinalRound

/-- A first card-game in which both sides play card index 2, completed by the
driver-style `completeCardGame` call (as the web driver does), followed by
the advance into card-game 2, where card selection is again open. -/
def traceCardReplay : Except String MMState :=
  MatchManager.new sideACards sideBCards "demo" "match-demo"
    |> stepE (MatchManager.selectCard · 1 2)
    |> stepE (MatchManager.selectCard · 2 2)
    |> stepE (MatchManager.selectProperty · 1 .deception)
    |> stepE (MatchManager.selectProperty · 2 .deception)
    |> stepA MatchManager.advanceToNextRound
    |> stepE (MatchManager.selectProperty · 1 .magic)
    |> stepE (MatchManager.selectProperty · 2 .magic)
    |> stepA MatchManager.advanceToNextRound
    |> stepE (MatchManager.selectProperty · 1 .attack)
    |> stepE (MatchManager.selectProperty · 2 .attack)
    |> stepT MatchManager.completeCardGame
    |> stepA MatchManager.advanceToNextCard

/-- Side 1 commits four properties in the first round phase without any
commit by side 2: the three canonical names and then the legacy alias
`rock`; every commit is accepted by `selectProperty`. -/
def traceAliasQuadSelect : Except String MMState :=
  MatchManager.new sideACards sideBCards "demo" "match-demo"
    |> stepE (MatchManager.selectCard · 1 0)
    |> stepE (MatchManager.selectCard · 2 0)
    |> stepE (MatchManager.selectProperty · 1 .deception)
    |> stepE (MatchManager.selectProperty · 1 .magic)
    |> stepE (MatchManager.selectProperty · 1 .attack)
    |> stepE (MatchManager.selectProperty · 1 .rock)

/-- A round-manager state in which side 1 has committed `deception`. -/
def oneUsedState : RMState :=
  (RoundManager.selectProperty RoundManager.new 1 .deception).1

/-- A freshly constructed match state with a nonzero wall-clock start time,
used to exercise the export/import round trip. -/
def witnessMatchState : MMState where
  matchId := "match-1"
  gameMode := "demo"
  player1Cards := sideACards
  player2Cards := sideBCards
  currentCardGame := 1
  maxCardGames := GameConfig.TOTAL_CARD_GAMES
  matchPhase := .cardSelection
  player1SelectedCard := none
  player2SelectedCard := none
  roundManager := RoundManager.new
  scoreManager := ScoreManager.new
  cardGameResults := []
  matchResult := none
  startTime := 1
  endTime := none

/-! Theorems.  Each claim of the specification review is settled by exactly
one theorem below; shared helper lemmas precede them. -/

/-- C1: for every pair of valid (property, value) inputs, the scoring
function returns exactly what the spec's four-step algorithm prescribes,
instantiated with the dominance relation each module encodes: equal
properties give the absolute difference to the strictly higher value (and
(0,0) on ties), a dominating property with the strictly higher value scores
the difference, and every other case scores (0,0).  This holds for the
shared `GameRules.calculateRoundScore` (after its legacy-name normalization)
and for the console `Game.calculateRoundScore`. -/
theorem C1_scoring_matches_spec_algorithm :
    (∀ (p1 p2 : PName) (v1 v2 : Nat),
        GameRules.isValidPropertyValue v1 = true →
        GameRules.isValidPropertyValue v2 = true →
        GameRules.calculateRoundScore p1 v1 p2 v2 =
          some (specRoundScore sharedDominates
            (normalizeProperty p1) v1 (normalizeProperty p2) v2)) ∧
    (∀ (q1 q2 : RPSName) (w1 w2 : Nat),
        consoleGameCalculateRoundScore q1 w1 q2 w2 =
          specRoundScore consoleDominates q1 w1 q2 w2) := by
  constructor
  · intro p1 p2 v1 v2 h1 h2
    have hp : ∀ p, GameRules.isValidProperty p = true := by decide
    unfold GameRules.calculateRoundScore specRoundScore
    rw [if_neg (by simp [hp]), if_neg (by simp [h1, h2])]
    simp only [sharedDominates, decide_eq_true_eq]
    split_ifs <;> rfl
  · intro q1 q2 w1 w2
    unfold consoleGameCalculateRoundScore specRoundScore
    simp only [consoleDominates, decide_eq_true_eq]

/-- Witness for C1 at the spec's own scenario: attack 9 versus attack 7
scores (2,0). -/
theorem C1_scoring_witness :
    GameRules.isValidPropertyValue 9 = true ∧
    GameRules.isValidPropertyValue 7 = true ∧
    GameRules.calculateRoundScore .attack 9 .attack 7 =
      some (specRoundScore sharedDominates
        (normalizeProperty .attack) 9 (normalizeProperty .attack) 7) ∧
    specRoundScore sharedDominates
      (normalizeProperty .attack) 9 (normalizeProperty .attack) 7 = (2, 0) :=
  ⟨by decide, by decide,
    C1_scoring_matches_spec_algorithm.1 .attack .attack 9 7 (by decide) (by decide),
    by decide⟩

/-- C2: the shared generator satisfies the claim in full — its universe has
exactly 36 cards, each summing to 20 with every property in [1,9] — but the
console `CardGenerator.generateAllPossibleCards` violates it: its rock loop
runs from 2 to 18, so it produces 81 cards, among them cards whose rock
property exceeds 9 (for example rock 10, paper 1, scissors 9), contradicting
the console config constants `PROPERTY_MIN_VALUE`/`PROPERTY_MAX_VALUE` of 1
and 9.  This is the code-side bug recorded for the claim. -/
theorem C2_card_universe_range_bug :
    (CardGenerator.generateAllCards.length = 36 ∧
     ∀ c ∈ CardGenerator.generateAllCards,
       c.deception + c.magic + c.attack = 20 ∧
       1 ≤ c.deception ∧ c.deception ≤ 9 ∧ 1 ≤ c.magic ∧ c.magic ≤ 9 ∧
       1 ≤ c.attack ∧ c.attack ≤ 9) ∧
    (consoleGenerateAllPossibleCards.length = 81 ∧
     (⟨10, 1, 9⟩ : CCard) ∈ consoleGenerateAllPossibleCards ∧
     ∃ c ∈ consoleGenerateAllPossibleCards, ¬ (c.rock ≤ 9)) := by
  set_option maxRecDepth 4000 in decide

/-- C3: the dominance relation is a total 3-cycle, consistently in every
module that encodes it: over the shared `WINNING_RULES` each canonical
property beats exactly one property, is beaten by exactly one, and never
beats itself; the console `r`/`s`/`p` cycle maps onto the shared one under
the rock→deception, paper→magic, scissors→attack renaming; and the legacy
normalization realizes exactly that renaming. -/
theorem C3_dominance_total_three_cycle :
    (∀ p ∈ VALID_PROPERTIES,
        (VALID_PROPERTIES.filter fun q => GameRules.doesPropertyBeat p q).length = 1 ∧
        (VALID_PROPERTIES.filter fun q => GameRules.doesPropertyBeat q p).length = 1 ∧
        GameRules.doesPropertyBeat p p = false) ∧
    (∀ x : RPSName,
        WINNING_RULES (rpsToCanonical x) = some (rpsToCanonical (consoleWinning x))) ∧
    (∀ x y : RPSName,
        consoleDominates x y = sharedDominates (rpsToCanonical x) (rpsToCanonical y)) ∧
    (normalizeProperty .rock = .deception ∧ normalizeProperty .paper = .magic ∧
     normalizeProperty .scissors = .attack) := by
  decide

/-- C4 counterexample: committing a legacy alias of an already-committed
property does NOT fail.  From a fresh round manager, side 1 commits
`deception` and then commits `rock` — an alias of `deception` under
`normalizeProperty` — and both commits succeed, leaving both names in the
used list.  The claim requires the second commit to fail. -/
theorem C4_alias_recommit_accepted :
    (RoundManager.selectProperty RoundManager.new 1 .deception).2 = none ∧
    (RoundManager.selectProperty oneUsedState 1 .rock).2 = none ∧
    (RoundManager.selectProperty oneUsedState 1 .rock).1.usedPlayer1Properties =
      [.deception, .rock] ∧
    normalizeProperty .rock = normalizeProperty .deception := by
  decide

/-- C4 amended: a side can never successfully commit the same raw property
name twice within one card-game — such a commit reports an error — and every
failed `selectProperty` call leaves the round state exactly as it was; but a
legacy alias of an already-committed property is accepted as a fresh name,
because availability is checked on raw names without normalization. -/
theorem C4_same_name_recommit_rejected (s : RMState) (n : Nat) (p : PName) :
    (p ∈ (if n = 1 then s.usedPlayer1Properties else s.usedPlayer2Properties) →
      (RoundManager.selectProperty s n p).2.isSome = true) ∧
    ((RoundManager.selectProperty s n p).2.isSome = true →
      (RoundManager.selectProperty s n p).1 = s) := by
  constructor
  · intro hmem
    have hnav : ¬ RoundManager.isPropertyAvailable s n p = true := by
      unfold RoundManager.isPropertyAvailable
      by_cases h1 : n = 1 <;> simp_all
    unfold RoundManager.selectProperty
    split_ifs <;> simp_all
  · intro hfail
    unfold RoundManager.selectProperty at hfail ⊢
    split_ifs at hfail ⊢ <;> simp_all

/-- Witness for the amended C4: with `deception` already used by side 1,
re-committing `deception` reports an error and leaves the state unchanged. -/
theorem C4_same_name_witness :
    PName.deception ∈
      (if 1 = 1 then oneUsedState.usedPlayer1Properties
       else oneUsedState.usedPlayer2Properties) ∧
    (RoundManager.selectProperty oneUsedState 1 .deception).2.isSome = true ∧
    (RoundManager.selectProperty oneUsedState 1 .deception).1 = oneUsedState :=
  ⟨by decide,
    (C4_same_name_recommit_rejected oneUsedState 1 .deception).1 (by decide),
    (C4_same_name_recommit_rejected oneUsedState 1 .deception).2
      ((C4_same_name_recommit_rejected oneUsedState 1 .deception).1 (by decide))⟩

/-- C5: `selectCard` tracks no used-card set — it only rejects indices below
`currentCardGame - 1`, assuming ascending play order.  After both sides play
card index 2 in card-game 1 and the match advances to card-game 2,
re-selecting the already-played index 2 succeeds, while the never-played
index 0 is rejected with the already-used error; both directions of the
claimed characterization fail, contradicting the method's own error message
and doc comment. -/
theorem C5_selectCard_reuse_bug :
    (match traceCardReplay with
      | .ok m =>
        decide (m.currentCardGame = 2) &&
        decide (m.matchPhase = Phase.cardSelection) &&
        (MatchManager.selectCard m 1 2).2.isNone &&
        (MatchManager.selectCard m 1 0).2.isSome
      | .error _ => false) = true := by
  rfl

/-- C6: when round 3 resolves through explicit selections, the card-game
does not complete: `calculateRound` checks `areAllRoundsComplete` while
`currentRound` is still 3, so no card-game result is recorded and the phase
stays at round-result; a further `advanceToNextRound` then moves to a round
4 property-selection phase, leaving the match awaiting selections after
round 3 has resolved — the drivers work around this by calling
`completeCardGame` themselves. -/
theorem C6_round3_resolution_no_completion_bug :
    (match traceExplicitRound3 with
      | .ok m =>
        decide (m.roundManager.roundResults.length = 3) &&
        decide (m.matchPhase = Phase.roundResult) &&
        decide (m.cardGameResults.length = 0) &&
        decide ((MatchManager.advanceToNextRound m).1.matchPhase =
          Phase.propertySelection) &&
        decide ((MatchManager.advanceToNextRound m).1.roundManager.currentRound = 4)
      | .error _ => false) = true := by
  rfl

set_option maxRecDepth 10000 in
/-- C7: a match can reach game-over with a recorded card-game of four
rounds.  Extending card-game 1 to a fourth round through legacy-alias
commits and finishing card-games 2 and 3 normally yields a completed match
whose result holds 3 card-games with round counts [4, 3, 3] — contradicting
the claim that each card-game contains exactly 3 round results (the final
scores still equal the sums over all recorded rounds, (11, 14) here). -/
theorem C7_completed_match_four_round_card_game_bug :
    (match traceFourRoundMatch with
      | .ok m =>
        decide (m.matchPhase = Phase.gameOver) &&
        (match m.matchResult with
         | some r =>
           decide (r.cardResults.length = 3) &&
           decide ((r.cardResults.map fun c => c.rounds.length) = [4, 3, 3]) &&
           decide (r.finalScores = (11, 14))
         | none => false)
      | .error _ => false) = true := by
  rfl

/-- C8 counterexample: a state reachable through the public interface whose
export/import round trip fails.  Side 1 commits the three canonical names
and then the alias `rock` inside one property-selection phase (all four
commits are accepted), producing a used-property list of length 4; importing
the exported tree then fails the round manager re-validation instead of
reconstructing the state. -/
theorem C8_roundtrip_failure_on_reachable_state :
    (match traceAliasQuadSelect with
      | .ok m =>
        decide (m.roundManager.usedPlayer1Properties =
          [PName.deception, PName.magic, PName.attack, PName.rock]) &&
        (match MatchManager.importState (MatchManager.exportState m) 0 with
         | .error _ => true
         | .ok _ => false)
      | .error _ => false) = true := by
  rfl

/-- Every card of a hand passing `CardGenerator.validateCards` survives the
JSON round trip of the card constructor. -/
theorem fromJSON_toJSON_of_valid (c : Card)
    (h : (decide (c.deception + c.magic + c.attack = 20) &&
      Card.isValidProperty c.deception && Card.isValidProperty c.magic &&
      Card.isValidProperty c.attack) = true) :
    Card.fromJSON (Card.toJSON c) = some c := by
  simp only [Bool.and_eq_true, decide_eq_true_eq] at h
  obtain ⟨⟨⟨hsum, hd⟩, hm⟩, ha⟩ := h
  unfold Card.fromJSON Card.toJSON Card.mk?
  rw [if_neg (by simpa using hsum), if_neg (by simp [hd, hm, ha])]

/-- A validated hand survives the list-level JSON round trip. -/
theorem fromJSONList_map_toJSON (l : List Card)
    (h : CardGenerator.validateCards l = true) :
    Card.fromJSONList (l.map Card.toJSON) = some l := by
  unfold CardGenerator.validateCards at h
  induction l with
  | nil => rfl
  | cons c rest ih =>
    simp only [List.all_cons, Bool.and_eq_true] at h
    simp [Card.fromJSONList, fromJSON_toJSON_of_valid c (by simp [h.1]), ih (by simp [h.2])]

/-- The round-manager export/import round trip is the identity on states
that pass its validator and carry the constructor-set round limit. -/
theorem roundManager_roundtrip (rm : RMState)
    (hv : RoundManager.validateState rm = true) (hmax : rm.maxRounds = 3) :
    RoundManager.importState (RoundManager.exportState rm) = .ok rm := by
  have h1 : ¬ rm.currentRound = 0 := by
    unfold RoundManager.validateState at hv
    simp only [Bool.and_eq_true, decide_eq_true_eq] at hv
    omega
  have h2 : ¬ rm.maxRounds = 0 := by omega
  unfold RoundManager.importState RoundManager.exportState
  rw [if_neg h1, if_neg h2]
  have hv' : RoundManager.validateState
      { currentRound := rm.currentRound, maxRounds := rm.maxRounds,
        roundResults := rm.roundResults,
        usedPlayer1Properties := rm.usedPlayer1Properties,
        usedPlayer2Properties := rm.usedPlayer2Properties,
        currentPlayer1Property := rm.currentPlayer1Property,
        currentPlayer2Property := rm.currentPlayer2Property,
        roundPhase := rm.roundPhase, autoPlayEnabled := rm.autoPlayEnabled } = true := hv
  rw [if_pos hv']

/-- The score-manager export/import round trip is the identity on states
that pass its validator. -/
theorem scoreManager_roundtrip (sm : SMState)
    (hv : ScoreManager.validateState sm = true) :
    ScoreManager.importState (ScoreManager.exportState sm) = .ok sm := by
  unfold ScoreManager.importState ScoreManager.exportState
  rw [if_pos hv]

/-- C8 amended: for every match state that passes the engine's own state
validator, carries the constructor-set limits (3 card-games, 3 rounds), a
non-empty game mode, a nonzero wall-clock start time and validator-passing
hands — as every normally played reachable state does — importing the
exported tree reconstructs the state exactly; but reachable states that
fail re-validation exist (see the counterexample), for which the import
throws instead. -/
theorem C8_roundtrip_of_validated_state (m : MMState) (now : Nat)
    (hv : MatchManager.validateState m = true)
    (hmaxc : m.maxCardGames = 3) (hmaxr : m.roundManager.maxRounds = 3)
    (hmode : ¬ m.gameMode = "") (hstart : ¬ m.startTime = 0)
    (hc1 : CardGenerator.validateCards m.player1Cards = true)
    (hc2 : CardGenerator.validateCards m.player2Cards = true) :
    MatchManager.importState (MatchManager.exportState m) now = .ok m := by
  have hparts := hv
  unfold MatchManager.validateState at hparts
  simp only [Bool.and_eq_true, decide_eq_true_eq] at hparts
  have hrm : RoundManager.validateState m.roundManager = true := by tauto
  have hsm : ScoreManager.validateState m.scoreManager = true := by tauto
  have hccg : ¬ m.currentCardGame = 0 := by omega
  unfold MatchManager.importState MatchManager.exportState
  rw [fromJSONList_map_toJSON _ hc1, fromJSONList_map_toJSON _ hc2,
    roundManager_roundtrip _ hrm hmaxr, scoreManager_roundtrip _ hsm]
  dsimp only
  rw [if_neg hmode, if_neg hccg, if_neg (by omega : ¬ m.maxCardGames = 0), if_neg hstart]
  have hv' : MatchManager.validateState
      { matchId := m.matchId, gameMode := m.gameMode,
        player1Cards := m.player1Cards, player2Cards := m.player2Cards,
        currentCardGame := m.currentCardGame, maxCardGames := m.maxCardGames,
        matchPhase := m.matchPhase,
        player1SelectedCard := m.player1SelectedCard,
        player2SelectedCard := m.player2SelectedCard,
        roundManager := m.roundManager, scoreManager := m.scoreManager,
        cardGameResults := m.cardGameResults, matchResult := m.matchResult,
        startTime := m.startTime, endTime := m.endTime } = true := hv
  rw [if_pos hv']

/-- Witness for the amended C8 at a concrete fresh match state. -/
theorem C8_roundtrip_witness :
    MatchManager.validateState witnessMatchState = true ∧
    MatchManager.importState (MatchManager.exportState witnessMatchState) 5 =
      Except.ok witnessMatchState :=
  ⟨by decide,
    C8_roundtrip_of_validated_state witnessMatchState 5 (by decide) (by decide)
      (by decide) (by decide) (by decide) (by decide) (by decide)⟩

/-- The difficulty modifier ignores the random reading at hard and expert
difficulty. -/
theorem applyDifficultyModifier_noise_free (base : ℚ) (d : Difficulty) (card : Card)
    (p : PName) (n1 n2 : ℚ) (hd : d = .hard ∨ d = .expert) :
    AIStrategy.applyDifficultyModifier base d card p n1 =
      AIStrategy.applyDifficultyModifier base d card p n2 := by
  rcases hd with h | h <;> subst h <;> rfl

/-- Move evaluation ignores the random reading at hard and expert
difficulty. -/
theorem evaluateMove_noise_free (card : Card) (p : PName) (opps : List Card)
    (used : List PName) (d : Difficulty) (n1 n2 : ℚ) (hd : d = .hard ∨ d = .expert) :
    AIStrategy.evaluateMove card p opps used d n1 =
      AIStrategy.evaluateMove card p opps used d n2 := by
  unfold AIStrategy.evaluateMove
  rcases hd with h | h <;> subst h <;> rfl

/-- The candidate loop ignores the random stream at hard and expert
difficulty, whatever the stream positions. -/
theorem chooseLoop_noise_free (card : Card) (opps : List Card) (used : List PName)
    (d : Difficulty) (rng1 rng2 : Nat → ℚ) (hd : d = .hard ∨ d = .expert) :
    ∀ (props : List PName) (i j : Nat) (best : Option ℚ) (bp : PName),
      AIStrategy.chooseLoop card opps used d rng1 props i best bp =
        AIStrategy.chooseLoop card opps used d rng2 props j best bp := by
  intro props
  induction props with
  | nil => intro i j best bp; rfl
  | cons p rest ih =>
    intro i j best bp
    unfold AIStrategy.chooseLoop
    rw [evaluateMove_noise_free card p opps used d (rng1 i) (rng2 j) hd]
    cases AIStrategy.evaluateMove card p opps used d (rng2 j) with
    | none => rfl
    | some score =>
      dsimp only
      split_ifs <;> exact ih _ _ _ _

/-- C9: at a difficulty whose modifier adds no random noise (hard or
expert), `chooseBestProperty` is a deterministic function of its inputs: two
invocations with identical card, candidate properties, opponent card pool
and opponent used-property list return the same property whatever random
streams the two runs would have consumed — the base expected-value
computation itself reads no randomness. -/
theorem C9_chooseProperty_deterministic (card : Card) (props : List PName)
    (opps : List Card) (used : List PName) (d : Difficulty) (rng1 rng2 : Nat → ℚ)
    (hd : d = .hard ∨ d = .expert) :
    AIStrategy.chooseBestProperty card props opps used d rng1 =
      AIStrategy.chooseBestProperty card props opps used d rng2 := by
  unfold AIStrategy.chooseBestProperty
  cases props with
  | nil => rfl
  | cons p rest =>
    cases rest with
    | nil => rfl
    | cons q rest2 =>
      exact chooseLoop_noise_free card opps used d rng1 rng2 hd _ _ _ _ _

/-- Witness for C9: concrete hard-difficulty evaluation under two different
random streams. -/
theorem C9_determinism_witness :
    (Difficulty.hard = Difficulty.hard ∨ Difficulty.hard = Difficulty.expert) ∧
    AIStrategy.chooseBestProperty ⟨0, 2, 9, 9⟩ [.deception, .magic] [⟨3, 5, 8, 7⟩] []
        .hard (fun _ => 0) =
      AIStrategy.chooseBestProperty ⟨0, 2, 9, 9⟩ [.deception, .magic] [⟨3, 5, 8, 7⟩] []
        .hard (fun _ => 1 / 2) :=
  ⟨Or.inl rfl,
    C9_chooseProperty_deterministic ⟨0, 2, 9, 9⟩ [.deception, .magic] [⟨3, 5, 8, 7⟩] []
      .hard (fun _ => 0) (fun _ => 1 / 2) (Or.inl rfl)⟩

/-- C10: for every valid input, the scoring function succeeds and returns a
pair of naturals bounded by 8 in which at least one component is 0 — the two
sides never both score in one round. -/
theorem C10_score_bounds_one_side_zero (p1 p2 : PName) (v1 v2 : Nat)
    (h1 : GameRules.isValidPropertyValue v1 = true)
    (h2 : GameRules.isValidPropertyValue v2 = true) :
    ∃ s : Nat × Nat, GameRules.calculateRoundScore p1 v1 p2 v2 = some s ∧
      s.1 ≤ GameConfig.MAX_SINGLE_ROUND_SCORE ∧
      s.2 ≤ GameConfig.MAX_SINGLE_ROUND_SCORE ∧ (s.1 = 0 ∨ s.2 = 0) := by
  have hv1 : 1 ≤ v1 ∧ v1 ≤ 9 := by
    simpa [GameRules.isValidPropertyValue] using h1
  have hv2 : 1 ≤ v2 ∧ v2 ≤ 9 := by
    simpa [GameRules.isValidPropertyValue] using h2
  have hp : ∀ p, GameRules.isValidProperty p = true := by decide
  unfold GameRules.calculateRoundScore
  rw [if_neg (by simp [hp]), if_neg (by simp [h1, h2])]
  simp only [GameConfig.MAX_SINGLE_ROUND_SCORE]
  split_ifs <;> refine ⟨_, rfl, ?_⟩ <;> simp <;> omega

/-- Witness for C10 at deception 2 versus magic 8 (the score is (0,6)). -/
theorem C10_bounds_witness :
    GameRules.isValidPropertyValue 2 = true ∧
    GameRules.isValidPropertyValue 8 = true ∧
    ∃ s : Nat × Nat, GameRules.calculateRoundScore .deception 2 .magic 8 = some s ∧
      s.1 ≤ GameConfig.MAX_SINGLE_ROUND_SCORE ∧
      s.2 ≤ GameConfig.MAX_SINGLE_ROUND_SCORE ∧ (s.1 = 0 ∨ s.2 = 0) :=
  ⟨by decide, by decide,
    C10_score_bounds_one_side_zero .deception .magic 2 8 (by decide) (by decide)⟩

end CardGame
